import Mathlib

/-!
Shallow embedding of the Ethereum HTTP gateway (`main.go` / `main_test.go`).

The remote node connection is modelled as a record of the two upstream
capabilities the adapter uses (`HeaderByNumber`, `BalanceAt`), exactly the
interface the test suite substitutes. `*big.Int` values are modelled as `Int`,
addresses as 20-byte lists of `Nat`. HTTP responses are modelled as a status
code together with the body text handed to the response writer: the trailing
newline appended by `http.Error` / `json.Encoder` and the response headers are
below the abstraction level of this development, which compares bodies at the
text level. `json.NewEncoder(w).Encode(map[string]interface{}{k: v})` for a
single string-valued key produces the compact object `{"k":"v"}`, embedded by
`encodeJsonStringField`.
-/

/-- A 20-byte Ethereum account address, as a list of byte values. -/
abbrev Address := List Nat

/-- Embedding of `go-ethereum`'s `types.Header`, restricted to the only field
the program reads: the block number (`header.Number`, a `*big.Int`). -/
structure Header where
  Number : Int
deriving DecidableEq, Repr

/-- The capability set of the upstream connection: the two `ethclient` methods
the adapter invokes, `HeaderByNumber(ctx, number)` and
`BalanceAt(ctx, account, number)`. The `context.Context` argument carries no
data in this program (`context.Background()`) and is omitted. `MockEthereumClient`
in `main_test.go` is exactly a value of this type. -/
structure EthereumClientInterface where
  HeaderByNumber : Option Int → Except String Header
  BalanceAt : Address → Option Int → Except String Int

/-- Embedding of the `EthereumClient` struct: it wraps the client connection. -/
structure EthereumClient where
  client : EthereumClientInterface

/-- Embedding of `NewEthereumClient`: the external dial
(`ethclient.Dial(infuraURL)`) is passed in as its result; a dial error is
propagated (`return nil, err`), otherwise the client is wrapped. -/
def NewEthereumClient (dial : Except String EthereumClientInterface) :
    Except String EthereumClient :=
  match dial with
  | Except.error err => Except.error err
  | Except.ok client => Except.ok ⟨client⟩

/-- Embedding of `EthereumClient.getLatestBlockNumber`: query the header with
a `nil` block selector and return `header.Number`. -/
def getLatestBlockNumber (ec : EthereumClient) : Except String Int :=
  match ec.client.HeaderByNumber none with
  | Except.error err => Except.error err
  | Except.ok header => Except.ok header.Number

/-- Embedding of `encoding/hex`'s digit decoding (`fromHexChar`): the value of
one hexadecimal character, or `none` if the character is not a hex digit. -/
def hexDigitValue (c : Char) : Option Nat :=
  if '0' ≤ c ∧ c ≤ '9' then some (c.toNat - '0'.toNat)
  else if 'a' ≤ c ∧ c ≤ 'f' then some (c.toNat - 'a'.toNat + 10)
  else if 'A' ≤ c ∧ c ≤ 'F' then some (c.toNat - 'A'.toNat + 10)
  else none

/-- Embedding of `common.Hex2Bytes` (which ignores the error of
`hex.DecodeString` and keeps the bytes decoded before it): decode successive
pairs of hex digits, stopping at the first invalid pair or trailing odd digit. -/
def Hex2Bytes : List Char → List Nat
  | c1 :: c2 :: rest =>
    match hexDigitValue c1, hexDigitValue c2 with
    | some hi, some lo => (16 * hi + lo) :: Hex2Bytes rest
    | _, _ => []
  | _ => []

/-- Embedding of `go-ethereum`'s `has0xPrefix`: the string has length at least
two, starts with the character zero, and its second character is x or X. -/
def has0x (s : List Char) : Bool :=
  match s with
  | c0 :: c1 :: _ => c0 == '0' && (c1 == 'x' || c1 == 'X')
  | _ => false

/-- Embedding of `common.FromHex`: strip a leading zero-x prefix, left-pad an
odd-length digit string with a zero character, then decode. -/
def FromHex (s : List Char) : List Nat :=
  let s1 := if has0x s then s.drop 2 else s
  let s2 := if s1.length % 2 = 1 then '0' :: s1 else s1
  Hex2Bytes s2

/-- Embedding of `common.BytesToAddress` / `Address.SetBytes`: keep the last
20 bytes if the input is longer, and right-align it into a zero-filled
20-byte address otherwise. -/
def BytesToAddress (b : List Nat) : Address :=
  let b' := if b.length > 20 then b.drop (b.length - 20) else b
  List.replicate (20 - b'.length) 0 ++ b'

/-- Embedding of `common.HexToAddress`. -/
def HexToAddress (s : String) : Address :=
  BytesToAddress (FromHex s.data)

/-- Embedding of `EthereumClient.getBalance`: normalize the address with
`common.HexToAddress` and query the balance with a `nil` block selector. -/
def getBalance (ec : EthereumClient) (address : String) : Except String Int :=
  let account := HexToAddress address
  match ec.client.BalanceAt account none with
  | Except.error err => Except.error err
  | Except.ok balance => Except.ok balance

/-- An HTTP response as observed by the caller: status code and body text. -/
structure HttpResponse where
  status : Nat
  body : String
deriving DecidableEq, Repr

/-- Embedding of `http.Error(w, msg, code)`: reply with the given status code
and the given message as plain body text. -/
def httpError (msg : String) (code : Nat) : HttpResponse :=
  ⟨code, msg⟩

/-- Embedding of `json.NewEncoder(w).Encode` for a one-entry map from the
given key to the given string value: the compact JSON object. -/
def encodeJsonStringField (key value : String) : String :=
  "\x7b\"" ++ key ++ "\":\"" ++ value ++ "\"\x7d"

/-- Embedding of the `/latest-block` handler registered in `main`: call the
adapter; on failure reply 500 with the error text, on success reply 200 with
the JSON body carrying the block number's decimal string
(`blockNumber.String()`). -/
def latestBlockHandler (client : EthereumClient) : HttpResponse :=
  match getLatestBlockNumber client with
  | Except.error err => httpError err 500
  | Except.ok blockNumber =>
      ⟨200, encodeJsonStringField "latest_block" (toString blockNumber)⟩

/-- Embedding of `r.URL.Query().Get("address")`: the first value of the query
parameter, or the empty string when the parameter is absent. -/
def queryGet (param : Option String) : String :=
  param.getD ""

/-- Embedding of the `/balance` handler registered in `main`: reject an empty
address with 400, otherwise call the adapter; on failure reply 500 with the
error text, on success reply 200 with the JSON body carrying the balance's
decimal string (`balance.String()`). -/
def balanceHandler (client : EthereumClient) (addressParam : Option String) :
    HttpResponse :=
  let address := queryGet addressParam
  if address = "" then httpError "Address is required" 400
  else
    match getBalance client address with
    | Except.error err => httpError err 500
    | Except.ok balance =>
        ⟨200, encodeJsonStringField "balance" (toString balance)⟩

/-- An incoming HTTP request: its path and its `address` query parameter
(`none` when the parameter is absent). -/
structure Request where
  path : String
  address : Option String

/-- The route table `main` registers once the client is constructed. -/
def routesOf (client : EthereumClient) : List (String × (Request → HttpResponse)) :=
  [("/latest-block", fun _ => latestBlockHandler client),
   ("/balance", fun r => balanceHandler client r.address)]

/-- The observable outcome of `main`'s startup: either the process terminated
with a fatal log message (`log.Fatalf`), or it is serving the registered
routes. -/
inductive ProcessState where
  | terminated (msg : String)
  | serving (routes : List (String × (Request → HttpResponse)))

/-- The routes registered in a process state: none when terminated. -/
def ProcessState.registeredRoutes : ProcessState → List (String × (Request → HttpResponse))
  | ProcessState.terminated _ => []
  | ProcessState.serving rs => rs

/-- Embedding of `main` up to the blocking `ListenAndServe`: construct the
client from the dial result; on failure `log.Fatalf` terminates the process
before any route is registered, otherwise both handlers are registered. -/
def runMain (dial : Except String EthereumClientInterface) : ProcessState :=
  match NewEthereumClient dial with
  | Except.error err => ProcessState.terminated ("Failed to connect to Ethereum: " ++ err)
  | Except.ok client => ProcessState.serving (routesOf client)

/-- The substitute connection of `main_test.go`: `HeaderByNumber` returns a
header with number 12345 and `BalanceAt` returns balance 1000 for the zero
address (the normalization of the test address `0x0`). -/
def mockTestClient : EthereumClientInterface where
  HeaderByNumber := fun _ => Except.ok ⟨12345⟩
  BalanceAt := fun account _ =>
    if account = List.replicate 20 0 then Except.ok 1000
    else Except.error "unexpected account"

/-- A substitute connection whose every upstream call fails with `boom`. -/
def failingClient : EthereumClientInterface where
  HeaderByNumber := fun _ => Except.error "boom"
  BalanceAt := fun _ _ => Except.error "boom"

/-- A substitute connection reporting balance 7 for every account. -/
def constBalanceClient : EthereumClientInterface where
  HeaderByNumber := fun _ => Except.ok ⟨0⟩
  BalanceAt := fun _ _ => Except.ok 7

/-- C1: on a successful adapter call, `GET /latest-block` responds 200 with
body `{"latest_block": "<decimal string>"}` where the decimal string is the
height of the header obtained by the upstream query with a `nil` block
selector. -/
theorem latest_block_success_C1 (c : EthereumClientInterface) (h : Header)
    (hq : c.HeaderByNumber none = Except.ok h) :
    getLatestBlockNumber ⟨c⟩ = Except.ok h.Number ∧
    latestBlockHandler ⟨c⟩ =
      ⟨200, encodeJsonStringField "latest_block" (toString h.Number)⟩ := by
  have hg : getLatestBlockNumber ⟨c⟩ = Except.ok h.Number := by
    simp [getLatestBlockNumber, hq]
  exact ⟨hg, by simp [latestBlockHandler, hg]⟩

/-- C1 witness: the substitute connection reporting height 12345 yields body
`{"latest_block":"12345"}`. -/
theorem latest_block_success_C1_witness :
    latestBlockHandler ⟨mockTestClient⟩ =
      ⟨200, encodeJsonStringField "latest_block" (toString (12345 : Int))⟩ ∧
    encodeJsonStringField "latest_block" (toString (12345 : Int)) =
      "\x7b\"latest_block\":\"12345\"\x7d" :=
  ⟨(latest_block_success_C1 mockTestClient ⟨12345⟩ rfl).2, rfl⟩

/-- C2: on a successful adapter call for a non-empty address parameter,
`GET /balance` responds 200 with body `{"balance": "<decimal string>"}` where
the value is the balance of the normalized address at the chain head (`nil`
block selector). -/
theorem balance_success_C2 (c : EthereumClientInterface) (addr : String) (b : Int)
    (hne : addr ≠ "") (hq : c.BalanceAt (HexToAddress addr) none = Except.ok b) :
    getBalance ⟨c⟩ addr = Except.ok b ∧
    balanceHandler ⟨c⟩ (some addr) =
      ⟨200, encodeJsonStringField "balance" (toString b)⟩ := by
  have hg : getBalance ⟨c⟩ addr = Except.ok b := by
    simp [getBalance, hq]
  refine ⟨hg, ?_⟩
  simp [balanceHandler, queryGet, hne, hg]

/-- C2 witness: against the substitute connection returning 1000 for the zero
address, `GET /balance?address=0x0` yields body `{"balance":"1000"}`. -/
theorem balance_success_C2_witness :
    balanceHandler ⟨mockTestClient⟩ (some "0x0") =
      ⟨200, encodeJsonStringField "balance" (toString (1000 : Int))⟩ ∧
    encodeJsonStringField "balance" (toString (1000 : Int)) =
      "\x7b\"balance\":\"1000\"\x7d" :=
  ⟨(balance_success_C2 mockTestClient "0x0" 1000 (by decide) rfl).2, rfl⟩

/-- C3: `GET /balance` with no `address` parameter responds 400 with body
`Address is required`, and the response does not depend on the connection at
all (no adapter call is made: the handler returns before `getBalance`). -/
theorem balance_missing_address_C3 (c c' : EthereumClientInterface) :
    balanceHandler ⟨c⟩ none = ⟨400, "Address is required"⟩ ∧
    balanceHandler ⟨c⟩ none = balanceHandler ⟨c'⟩ none :=
  ⟨rfl, rfl⟩

/-- C4: when the adapter call fails, either endpoint responds 500 with the
failure's error message as body text; the handlers make exactly one adapter
call by construction and always produce a response, so no success body is
written on the failure path. -/
theorem adapter_failure_500_C4 (c : EthereumClientInterface) (e : String)
    (addr : String) (hne : addr ≠ "") :
    (c.HeaderByNumber none = Except.error e → latestBlockHandler ⟨c⟩ = ⟨500, e⟩) ∧
    (c.BalanceAt (HexToAddress addr) none = Except.error e →
      balanceHandler ⟨c⟩ (some addr) = ⟨500, e⟩) := by
  constructor
  · intro hq
    simp [latestBlockHandler, getLatestBlockNumber, hq, httpError]
  · intro hq
    simp [balanceHandler, queryGet, hne, getBalance, hq, httpError]

/-- C4 witness: a substitute connection failing with `boom` yields 500 `boom`
on both endpoints. -/
theorem adapter_failure_500_C4_witness :
    latestBlockHandler ⟨failingClient⟩ = ⟨500, "boom"⟩ ∧
    balanceHandler ⟨failingClient⟩ (some "0x0") = ⟨500, "boom"⟩ :=
  ⟨(adapter_failure_500_C4 failingClient "boom" "0x0" (by decide)).1 rfl,
   (adapter_failure_500_C4 failingClient "boom" "0x0" (by decide)).2 rfl⟩

/-- C10: `GET /balance` with a present but empty `address` parameter responds
exactly as when the parameter is absent: 400 with body `Address is required`,
because the handler tests the retrieved parameter value against the empty
string. -/
theorem balance_empty_address_C10 (c : EthereumClientInterface) :
    balanceHandler ⟨c⟩ (some "") = ⟨400, "Address is required"⟩ ∧
    balanceHandler ⟨c⟩ (some "") = balanceHandler ⟨c⟩ none :=
  ⟨rfl, rfl⟩

/-- C8: when the dial fails at startup, the process terminates with the fatal
message and no route is registered, so no request is ever handled. -/
theorem startup_failure_terminates_C8 (e : String) :
    runMain (Except.error e) =
      ProcessState.terminated ("Failed to connect to Ethereum: " ++ e) ∧
    (runMain (Except.error e)).registeredRoutes = [] :=
  ⟨rfl, rfl⟩

/-- C5: in the capability model of `main_test.go` (where the connection is a
value of `EthereumClientInterface`), wrapping the substitute connection and
running both adapter operations returns exactly the values the substitute
supplies: height 12345 and balance 1000 for the zero address (the test passes
`common.HexToAddress("0x0").Hex()`, the 40-zero-digit hex form). In `main.go`
itself `NewEthereumClient` takes no argument and dials a fixed URL over the
concrete `ethclient.Client`, so the test's call `NewEthereumClient(mockClient)`
does not type-check against it. -/
theorem substitute_adapter_values_C5 :
    NewEthereumClient (Except.ok mockTestClient) = Except.ok ⟨mockTestClient⟩ ∧
    getLatestBlockNumber ⟨mockTestClient⟩ = Except.ok 12345 ∧
    getBalance ⟨mockTestClient⟩ "0x0000000000000000000000000000000000000000" =
      Except.ok 1000 :=
  ⟨rfl, rfl, rfl⟩

/-- C6 counterexample: the address string `zz` is malformed (not hexadecimal),
yet the handler does not respond 400: `HexToAddress` coerces it to the zero
address and the query is forwarded upstream, here answered with 200 and
balance 7. -/
theorem malformed_address_forwarded_C6 :
    balanceHandler ⟨constBalanceClient⟩ (some "zz") =
      ⟨200, encodeJsonStringField "balance" (toString (7 : Int))⟩ ∧
    HexToAddress "zz" = List.replicate 20 0 :=
  ⟨rfl, rfl⟩

/-- C6 amended: only a missing or empty address parameter is rejected with
400 `Address is required`; a non-empty address — malformed or not — is never
validated: it is normalized by `HexToAddress` and forwarded upstream, and the
response is entirely determined by the upstream balance call. -/
theorem balance_validation_C6_amended (c : EthereumClientInterface)
    (p : Option String) :
    (queryGet p = "" → balanceHandler ⟨c⟩ p = ⟨400, "Address is required"⟩) ∧
    (queryGet p ≠ "" → balanceHandler ⟨c⟩ p =
      match c.BalanceAt (HexToAddress (queryGet p)) none with
      | Except.error err => ⟨500, err⟩
      | Except.ok b => ⟨200, encodeJsonStringField "balance" (toString b)⟩) := by
  constructor
  · intro h
    simp [balanceHandler, h, httpError]
  · intro h
    cases hb : c.BalanceAt (HexToAddress (queryGet p)) none with
    | error err => simp [balanceHandler, h, getBalance, hb, httpError]
    | ok b => simp [balanceHandler, h, getBalance, hb]

/-- C6 amended witness: the absent parameter is rejected with 400, while the
malformed address `zz` is forwarded and answered with 200. -/
theorem balance_validation_C6_amended_witness :
    balanceHandler ⟨constBalanceClient⟩ none = ⟨400, "Address is required"⟩ ∧
    balanceHandler ⟨constBalanceClient⟩ (some "0x01") =
      ⟨200, encodeJsonStringField "balance" (toString (7 : Int))⟩ :=
  ⟨(balance_validation_C6_amended constBalanceClient none).1 rfl,
   (balance_validation_C6_amended constBalanceClient (some "0x01")).2 (by decide)⟩

/-- A hexadecimal digit is neither x nor X, the prefix markers stripped by
`has0x`. -/
theorem hexDigit_ne_x {c : Char} (h : (hexDigitValue c).isSome) :
    (c == 'x') = false ∧ (c == 'X') = false := by
  constructor
  · by_cases hc : c = 'x'
    · subst hc
      have hx : hexDigitValue 'x' = none := by decide
      rw [hx] at h
      simp at h
    · simp [hc]
  · by_cases hc : c = 'X'
    · subst hc
      have hx : hexDigitValue 'X' = none := by decide
      rw [hx] at h
      simp at h
    · simp [hc]

/-- A string of hexadecimal digits carries no zero-x prefix. -/
theorem has0x_eq_false_of_hex (d : List Char)
    (hd : ∀ c ∈ d, (hexDigitValue c).isSome) : has0x d = false := by
  match d with
  | [] => rfl
  | [c] => rfl
  | c0 :: c1 :: rest =>
    have h1 := hexDigit_ne_x (hd c1 (by simp))
    simp [has0x, h1.1, h1.2]

/-- Prepending the zero-x prefix to a hex-digit string does not change what
`FromHex` decodes: the prefix is stripped before decoding. -/
theorem FromHex_strip0x (d : List Char)
    (hd : ∀ c ∈ d, (hexDigitValue c).isSome) :
    FromHex ('0' :: 'x' :: d) = FromHex d := by
  have h0 := has0x_eq_false_of_hex d hd
  have h1 : has0x ('0' :: 'x' :: d) = true := rfl
  have h2 : List.drop 2 ('0' :: 'x' :: d) = d := rfl
  simp [FromHex, h1, h0, h2]

/-- C7: for a hexadecimal address string, querying with or without the `0x`
prefix normalizes to the same 20-byte address, and therefore `getBalance`
returns the same result against the same connection. -/
theorem address_normalization_0x_C7 (s : String)
    (hs : ∀ c ∈ s.data, (hexDigitValue c).isSome) :
    HexToAddress ("0x" ++ s) = HexToAddress s ∧
    ∀ c : EthereumClientInterface,
      getBalance ⟨c⟩ ("0x" ++ s) = getBalance ⟨c⟩ s := by
  have hdata : ("0x" ++ s).data = '0' :: 'x' :: s.data := by
    cases s with
    | mk d => rfl
  have haddr : HexToAddress ("0x" ++ s) = HexToAddress s := by
    rw [HexToAddress, HexToAddress, hdata, FromHex_strip0x s.data hs]
  exact ⟨haddr, fun c => by rw [getBalance, getBalance, haddr]⟩

/-- C7 witness: the address `abc` with and without the prefix normalizes to
the same address and yields the same balance result. -/
theorem address_normalization_0x_C7_witness :
    HexToAddress ("0x" ++ "abc") = HexToAddress "abc" ∧
    getBalance ⟨constBalanceClient⟩ ("0x" ++ "abc") =
      getBalance ⟨constBalanceClient⟩ "abc" := by
  have h := address_normalization_0x_C7 "abc" (by decide)
  exact ⟨h.1, h.2 constBalanceClient⟩

/-- C9: the two operations do not interfere: `getLatestBlockNumber` depends
only on the connection's header response and `getBalance` depends only on the
connection's balance response for its own (normalized) address argument. In
this embedding the handlers are pure functions of the read-only connection,
so any interleaving of the two requests returns these same values. -/
theorem request_noninterference_C9 (c1 c2 : EthereumClientInterface)
    (addr : String) :
    (c1.HeaderByNumber none = c2.HeaderByNumber none →
      getLatestBlockNumber ⟨c1⟩ = getLatestBlockNumber ⟨c2⟩) ∧
    (c1.BalanceAt (HexToAddress addr) none = c2.BalanceAt (HexToAddress addr) none →
      getBalance ⟨c1⟩ addr = getBalance ⟨c2⟩ addr) := by
  constructor
  · intro h
    simp [getLatestBlockNumber, h]
  · intro h
    simp [getBalance, h]

/-- Substitute connections agreeing on the header response but not on
balances. -/
def headerAgreeA : EthereumClientInterface where
  HeaderByNumber := fun _ => Except.ok ⟨5⟩
  BalanceAt := fun _ _ => Except.ok 1

/-- Second substitute connection of the pair agreeing only on headers. -/
def headerAgreeB : EthereumClientInterface where
  HeaderByNumber := fun _ => Except.ok ⟨5⟩
  BalanceAt := fun _ _ => Except.ok 2

/-- Substitute connections agreeing on balances but not on headers. -/
def balanceAgreeA : EthereumClientInterface where
  HeaderByNumber := fun _ => Except.ok ⟨6⟩
  BalanceAt := fun _ _ => Except.ok 3

/-- Second substitute connection of the pair agreeing only on balances. -/
def balanceAgreeB : EthereumClientInterface where
  HeaderByNumber := fun _ => Except.ok ⟨7⟩
  BalanceAt := fun _ _ => Except.ok 3

/-- C9 witness: connections differing only in the other capability give equal
results for each operation. -/
theorem request_noninterference_C9_witness :
    getLatestBlockNumber ⟨headerAgreeA⟩ = getLatestBlockNumber ⟨headerAgreeB⟩ ∧
    getBalance ⟨balanceAgreeA⟩ "0x1" = getBalance ⟨balanceAgreeB⟩ "0x1" :=
  ⟨(request_noninterference_C9 headerAgreeA headerAgreeB "0x1").1 rfl,
   (request_noninterference_C9 balanceAgreeA balanceAgreeB "0x1").2 rfl⟩
